import Mathlib

/-!
Verification of the configuration loader of kafka-pixy (`config/config.go`).

Shallow embedding notes:
* Go `time.Duration` is an `int64` count of nanoseconds; it is modelled as `Int`
  (overflow is irrelevant here: only comparisons with 0 and between fields occur).
* The YAML decoder (`gopkg.in/yaml.v2`) is an external collaborator.  Its
  behaviour used by `FromYAML` is: unmarshalling a partial document onto an
  already-populated `Proxy` record overwrites exactly the fields present in the
  document and leaves the rest untouched.  An override block is therefore
  modelled as a record of `Option` fields (`ProxyOverride`), a malformed block
  as `YVal.malformed`, and the marshal/unmarshal round trip of `FromYAML` as
  `applyOverride`.
* `os.Getenv "KAFKA_VERSION"` and the generated client id (`newClientID`) are
  passed as explicit parameters (`kafkaVersionEnv`, `clientID`); `os.Getenv`
  yields `""` when the variable is absent.
* Go's `map[string]*Proxy` is modelled as an association list with
  overwrite-on-insert semantics (`insertProxy`); `yaml.MapSlice` already is an
  ordered list of key/value pairs.
* `errors.Wrap err msg` / `errors.Wrapf` produce the message `msg ++ ": " ++ err`;
  errors are modelled as their message strings, fallible functions return
  `Except String _` / `Option String`.
-/

namespace Config

/-- Constant `defaultCompression` of config.go. -/
def defaultCompression : String := "snappy"

/-- Constant `defaultRequiredAcks` of config.go. -/
def defaultRequiredAcks : String := "wait_for_all"

/-- Constant `defaultKafkaVersion` of config.go. -/
def defaultKafkaVersion : String := "0.8.2.2"

/-- Key set of the `kafkaVersions` map of config.go (only membership of keys is
used by the code). -/
def kafkaVersions : List String :=
  ["0.8.2.2", "0.9.0.0", "0.9.0.1", "0.10.0.0", "0.10.0.1", "0.10.1.0"]

/-- Key set of the `compressionCodecs` map of config.go. -/
def compressionCodecs : List String := ["none", "gzip", "snappy", "lz4"]

/-- Key set of the `producerAcks` map of config.go. -/
def producerAcks : List String := ["no_response", "wait_for_local", "wait_for_all"]

/-- Go `time.Millisecond` in nanoseconds. -/
def Millisecond : Int := 1000000

/-- Go `time.Second` in nanoseconds. -/
def Second : Int := 1000000000

/-- The `Kafka` sub-struct of `Proxy`. -/
structure KafkaCfg where
  SeedPeers : List String
  Version : String
  deriving DecidableEq, Repr

/-- The `ZooKeeper` sub-struct of `Proxy`. -/
structure ZooKeeperCfg where
  SeedPeers : List String
  Chroot : String
  deriving DecidableEq, Repr

/-- The `Producer` sub-struct of `Proxy`.  Duration fields are nanoseconds. -/
structure ProducerCfg where
  ChannelBufferSize : Int
  Compression : String
  FlushBytes : Int
  FlushFrequency : Int
  RetryBackoff : Int
  RetryMax : Int
  RequiredAcks : String
  ShutdownTimeout : Int
  deriving DecidableEq, Repr

/-- The `Consumer` sub-struct of `Proxy`.  Duration fields are nanoseconds. -/
structure ConsumerCfg where
  AckTimeout : Int
  ChannelBufferSize : Int
  FetchBytes : Int
  LongPollingTimeout : Int
  OffsetsCommitInterval : Int
  RebalanceDelay : Int
  RegistrationTimeout : Int
  RetryBackoff : Int
  deriving DecidableEq, Repr

/-- The `Proxy` struct of config.go. -/
structure Proxy where
  ClientID : String
  Kafka : KafkaCfg
  ZooKeeper : ZooKeeperCfg
  Producer : ProducerCfg
  Consumer : ConsumerCfg
  deriving DecidableEq, Repr

/-- The `App` struct of config.go.  `Proxies` is the contents of the Go map,
as an association list with unique keys. -/
structure App where
  GRPCAddr : String
  TCPAddr : String
  UnixAddr : String
  Proxies : List (String × Proxy)
  DefaultCluster : String
  deriving DecidableEq, Repr

/-- `defaultProxyWithClientID` of config.go.  `kafkaVersionEnv` is the value of
`os.Getenv "KAFKA_VERSION"` (`""` when unset): the code first sets the version
to `defaultKafkaVersion` and then replaces it by the environment value exactly
when that value is a key of `kafkaVersions`. -/
def defaultProxyWithClientID (kafkaVersionEnv clientID : String) : Proxy :=
  { ClientID := clientID
    Kafka :=
      { SeedPeers := ["localhost:9092"]
        Version :=
          if kafkaVersions.contains kafkaVersionEnv then kafkaVersionEnv
          else defaultKafkaVersion }
    ZooKeeper := { SeedPeers := ["localhost:2181"], Chroot := "" }
    Producer :=
      { ChannelBufferSize := 4096
        Compression := defaultCompression
        FlushBytes := 1024 * 1024
        FlushFrequency := 500 * Millisecond
        RetryBackoff := 10 * Second
        RetryMax := 6
        RequiredAcks := defaultRequiredAcks
        ShutdownTimeout := 30 * Second }
    Consumer :=
      { AckTimeout := 15 * Second
        ChannelBufferSize := 64
        FetchBytes := 1024 * 1024
        LongPollingTimeout := 3 * Second
        OffsetsCommitInterval := 500 * Millisecond
        RebalanceDelay := 250 * Millisecond
        RegistrationTimeout := 20 * Second
        RetryBackoff := 500 * Millisecond } }

/-- `(*Proxy).validate` of config.go: the exact sequence of checks, first
failure wins, `none` on success.  Error strings are verbatim. -/
def Proxy.validate (p : Proxy) : Option String :=
  if ¬ kafkaVersions.contains p.Kafka.Version then
    some ("Bad kafka.version: " ++ p.Kafka.Version)
  else if p.Producer.ChannelBufferSize ≤ 0 then
    some "producer.channel_buffer_size must be > 0"
  else if p.Producer.FlushBytes < 0 then
    some "producer.flush_bytes must be >= 0"
  else if p.Producer.FlushFrequency < 0 then
    some "producer.flush_frequency must be >= 0"
  else if p.Producer.RetryBackoff ≤ 0 then
    some "producer.retry_backoff must be > 0"
  else if p.Producer.RetryMax ≤ 0 then
    some "producer.retry_max must be > 0"
  else if p.Producer.ShutdownTimeout < 0 then
    some "producer.shutdown_timeout must be >= 0"
  else if ¬ compressionCodecs.contains p.Producer.Compression then
    some ("Bad producer.compression: " ++ p.Producer.Compression)
  else if ¬ producerAcks.contains p.Producer.RequiredAcks then
    some ("Bad producer.required_acks: " ++ p.Producer.RequiredAcks)
  else if p.Consumer.RegistrationTimeout ≤ p.Consumer.AckTimeout then
    some "consumer.ack_timeout must be < consumer.registration_timeout"
  else if p.Consumer.ChannelBufferSize ≤ 0 then
    some "consumer.channel_buffer_size must be > 0"
  else if p.Consumer.FetchBytes ≤ 0 then
    some "consumer.fetch_bytes must be > 0"
  else if p.Consumer.LongPollingTimeout ≤ 0 then
    some "consumer.long_polling_timeout must be > 0"
  else if p.Consumer.OffsetsCommitInterval ≤ 0 then
    some "consumer.offsets_commit_interval must be > 0"
  else if p.Consumer.RebalanceDelay ≤ 0 then
    some "consumer.rebalance_delay must be > 0"
  else if p.Consumer.RegistrationTimeout ≤ 0 then
    some "consumer.registration_timeout must be > 0"
  else if p.Consumer.RetryBackoff ≤ 0 then
    some "consumer.retry_backoff must be > 0"
  else none

/-- The `for cluster, proxyCfg := range a.Proxies` loop of `(*App).validate`:
the first failing proxy's error, wrapped with `"invalid config, cluster=%s"`. -/
def validateProxies : List (String × Proxy) → Option String
  | [] => none
  | (cluster, p) :: rest =>
    match p.validate with
    | some e => some ("invalid config, cluster=" ++ cluster ++ ": " ++ e)
    | none => validateProxies rest

/-- `(*App).validate` of config.go (the misspelling "at least on proxy" is
verbatim from the source). -/
def App.validate (a : App) : Option String :=
  if a.Proxies.isEmpty then some "at least on proxy must be configured"
  else validateProxies a.Proxies

/-- A key of the `proxies` YAML mapping (`yaml.MapSlice` keys are arbitrary
values; the code only distinguishes strings from everything else). -/
inductive YKey where
  | str (s : String)
  | nonString (raw : String)
  deriving DecidableEq, Repr

/-- A partial `Proxy` document: one `Option` per YAML-settable leaf field.
`none` means the field is absent from the override block. -/
structure ProxyOverride where
  ClientID : Option String := none
  KafkaSeedPeers : Option (List String) := none
  KafkaVersion : Option String := none
  ZooKeeperSeedPeers : Option (List String) := none
  ZooKeeperChroot : Option String := none
  ProducerChannelBufferSize : Option Int := none
  ProducerCompression : Option String := none
  ProducerFlushBytes : Option Int := none
  ProducerFlushFrequency : Option Int := none
  ProducerRetryBackoff : Option Int := none
  ProducerRetryMax : Option Int := none
  ProducerRequiredAcks : Option String := none
  ProducerShutdownTimeout : Option Int := none
  ConsumerAckTimeout : Option Int := none
  ConsumerChannelBufferSize : Option Int := none
  ConsumerFetchBytes : Option Int := none
  ConsumerLongPollingTimeout : Option Int := none
  ConsumerOffsetsCommitInterval : Option Int := none
  ConsumerRebalanceDelay : Option Int := none
  ConsumerRegistrationTimeout : Option Int := none
  ConsumerRetryBackoff : Option Int := none
  deriving DecidableEq, Repr

/-- A value of the `proxies` YAML mapping: either a well-formed partial proxy
document, or one that `yaml.Unmarshal` rejects with message `msg`. -/
inductive YVal where
  | proxy (ov : ProxyOverride)
  | malformed (msg : String)
  deriving DecidableEq, Repr

/-- The already-parsed input document.  `FromYAML` decodes it into `proxyProb`,
whose only field is `Proxies`, so every other top-level key — in particular
`default_cluster`, modelled here explicitly — is dropped by the decode. -/
structure YamlDoc where
  proxies : List (YKey × YVal)
  defaultCluster : Option String := none
  deriving DecidableEq, Repr

/-- The `yaml.Marshal`/`yaml.Unmarshal` round trip of `FromYAML`: decoding the
override block onto the already-populated record `p` overwrites exactly the
fields present in the block. -/
def applyOverride (p : Proxy) (ov : ProxyOverride) : Proxy :=
  { ClientID := ov.ClientID.getD p.ClientID
    Kafka :=
      { SeedPeers := ov.KafkaSeedPeers.getD p.Kafka.SeedPeers
        Version := ov.KafkaVersion.getD p.Kafka.Version }
    ZooKeeper :=
      { SeedPeers := ov.ZooKeeperSeedPeers.getD p.ZooKeeper.SeedPeers
        Chroot := ov.ZooKeeperChroot.getD p.ZooKeeper.Chroot }
    Producer :=
      { ChannelBufferSize := ov.ProducerChannelBufferSize.getD p.Producer.ChannelBufferSize
        Compression := ov.ProducerCompression.getD p.Producer.Compression
        FlushBytes := ov.ProducerFlushBytes.getD p.Producer.FlushBytes
        FlushFrequency := ov.ProducerFlushFrequency.getD p.Producer.FlushFrequency
        RetryBackoff := ov.ProducerRetryBackoff.getD p.Producer.RetryBackoff
        RetryMax := ov.ProducerRetryMax.getD p.Producer.RetryMax
        RequiredAcks := ov.ProducerRequiredAcks.getD p.Producer.RequiredAcks
        ShutdownTimeout := ov.ProducerShutdownTimeout.getD p.Producer.ShutdownTimeout }
    Consumer :=
      { AckTimeout := ov.ConsumerAckTimeout.getD p.Consumer.AckTimeout
        ChannelBufferSize := ov.ConsumerChannelBufferSize.getD p.Consumer.ChannelBufferSize
        FetchBytes := ov.ConsumerFetchBytes.getD p.Consumer.FetchBytes
        LongPollingTimeout := ov.ConsumerLongPollingTimeout.getD p.Consumer.LongPollingTimeout
        OffsetsCommitInterval := ov.ConsumerOffsetsCommitInterval.getD p.Consumer.OffsetsCommitInterval
        RebalanceDelay := ov.ConsumerRebalanceDelay.getD p.Consumer.RebalanceDelay
        RegistrationTimeout := ov.ConsumerRegistrationTimeout.getD p.Consumer.RegistrationTimeout
        RetryBackoff := ov.ConsumerRetryBackoff.getD p.Consumer.RetryBackoff } }

/-- Assignment `appCfg.Proxies[cluster] = proxyCfg` on the Go map: overwrite the
existing entry if the key is present, append otherwise. -/
def insertProxy : List (String × Proxy) → String → Proxy → List (String × Proxy)
  | [], c, p => [(c, p)]
  | (c0, p0) :: rest, c, p =>
    if c0 = c then (c, p) :: rest else (c0, p0) :: insertProxy rest c p

/-- Lookup in the modelled Go map. -/
def lookupCluster : List (String × Proxy) → String → Option Proxy
  | [], _ => none
  | (c0, p0) :: rest, c => if c0 = c then some p0 else lookupCluster rest c

/-- `newApp` of config.go. -/
def newApp : App :=
  { GRPCAddr := "0.0.0.0:19091"
    TCPAddr := "0.0.0.0:19092"
    UnixAddr := ""
    Proxies := []
    DefaultCluster := "" }

/-- The `for _, proxyItem := range prob.Proxies` loop of `FromYAML`, carrying
the map contents and `DefaultCluster` as explicit state.  On a key that is not
a string the source formats the zero-valued `cluster` variable (not the key),
so the error message is the constant `"invalid cluster, "`. -/
def fromYAMLLoop (dflt : Proxy) :
    List (YKey × YVal) → List (String × Proxy) → String →
    Except String (List (String × Proxy) × String)
  | [], acc, dc => .ok (acc, dc)
  | (key, val) :: rest, acc, dc =>
    match key with
    | .nonString _ => .error "invalid cluster, "
    | .str cluster =>
      match val with
      | .malformed msg =>
        .error ("failed to parse proxy config, cluster=" ++ cluster ++ ": " ++ msg)
      | .proxy ov =>
        fromYAMLLoop dflt rest (insertProxy acc cluster (applyOverride dflt ov))
          (if dc = "" then cluster else dc)

/-- `FromYAML` of config.go, parameterised by the environment-provided Kafka
version and the client id generated by `newClientID`.  The initial
`yaml.Unmarshal` of the raw bytes into `proxyProb` is the external parser; its
output is the `YamlDoc` argument. -/
def FromYAML (kafkaVersionEnv clientID : String) (doc : YamlDoc) : Except String App :=
  match fromYAMLLoop (defaultProxyWithClientID kafkaVersionEnv clientID) doc.proxies [] "" with
  | .error e => .error e
  | .ok (proxies, dc) =>
    match App.validate { newApp with Proxies := proxies, DefaultCluster := dc } with
    | some e => .error ("invalid config parameter: " ++ e)
    | none => .ok { newApp with Proxies := proxies, DefaultCluster := dc }

/-- Spec-side definition (§4.4 of the spec): run a list of checks in order and
return the first violation. -/
def firstViolation : List (Proxy → Option String) → Proxy → Option String
  | [], _ => none
  | check :: rest, p => (check p).orElse (fun _ => firstViolation rest p)

/-- Spec-side definition: the per-proxy checks in exactly the fixed order the
spec lists them (kafka version; producer buffer, flush bytes, flush frequency,
retry backoff, retry max, shutdown timeout, compression, required acks; then
the consumer checks starting with the ack-timeout cross-field check). -/
def specOrderedChecks : List (Proxy → Option String) :=
  [ fun p => if ¬ kafkaVersions.contains p.Kafka.Version then
      some ("Bad kafka.version: " ++ p.Kafka.Version) else none
  , fun p => if p.Producer.ChannelBufferSize ≤ 0 then
      some "producer.channel_buffer_size must be > 0" else none
  , fun p => if p.Producer.FlushBytes < 0 then
      some "producer.flush_bytes must be >= 0" else none
  , fun p => if p.Producer.FlushFrequency < 0 then
      some "producer.flush_frequency must be >= 0" else none
  , fun p => if p.Producer.RetryBackoff ≤ 0 then
      some "producer.retry_backoff must be > 0" else none
  , fun p => if p.Producer.RetryMax ≤ 0 then
      some "producer.retry_max must be > 0" else none
  , fun p => if p.Producer.ShutdownTimeout < 0 then
      some "producer.shutdown_timeout must be >= 0" else none
  , fun p => if ¬ compressionCodecs.contains p.Producer.Compression then
      some ("Bad producer.compression: " ++ p.Producer.Compression) else none
  , fun p => if ¬ producerAcks.contains p.Producer.RequiredAcks then
      some ("Bad producer.required_acks: " ++ p.Producer.RequiredAcks) else none
  , fun p => if p.Consumer.RegistrationTimeout ≤ p.Consumer.AckTimeout then
      some "consumer.ack_timeout must be < consumer.registration_timeout" else none
  , fun p => if p.Consumer.ChannelBufferSize ≤ 0 then
      some "consumer.channel_buffer_size must be > 0" else none
  , fun p => if p.Consumer.FetchBytes ≤ 0 then
      some "consumer.fetch_bytes must be > 0" else none
  , fun p => if p.Consumer.LongPollingTimeout ≤ 0 then
      some "consumer.long_polling_timeout must be > 0" else none
  , fun p => if p.Consumer.OffsetsCommitInterval ≤ 0 then
      some "consumer.offsets_commit_interval must be > 0" else none
  , fun p => if p.Consumer.RebalanceDelay ≤ 0 then
      some "consumer.rebalance_delay must be > 0" else none
  , fun p => if p.Consumer.RegistrationTimeout ≤ 0 then
      some "consumer.registration_timeout must be > 0" else none
  , fun p => if p.Consumer.RetryBackoff ≤ 0 then
      some "consumer.retry_backoff must be > 0" else none ]

/-- Spec-side definition: the cluster name `FromYAML` actually ends up with,
namely the first cluster name in document order that is not the empty string
(the `DefaultCluster == ""` sentinel makes an empty first name be skipped),
and `""` when every name is empty or the mapping is empty. -/
def firstNonEmptyClusterName : List (YKey × YVal) → String
  | [] => ""
  | (.str c, _) :: rest => if c = "" then firstNonEmptyClusterName rest else c
  | (.nonString _, _) :: rest => firstNonEmptyClusterName rest

/-- Spec-side definition: the first cluster name in document order, as the
claims use the phrase (`none` when the mapping is empty or starts with a
non-string key). -/
def firstClusterName : List (YKey × YVal) → Option String
  | [] => none
  | (.str c, _) :: _ => some c
  | (.nonString _, _) :: _ => none

/-- The override block a cluster name maps to in the document: the value of
the last entry whose key is that name (Go map semantics make the last write
win), `none` when no entry carries that name. -/
def lastOverride : List (YKey × YVal) → String → Option YVal
  | [], _ => none
  | (key, val) :: rest, c =>
    match lastOverride rest c with
    | some v => some v
    | none => if key = YKey.str c then some val else none

/-- An override block that sets no field at all. -/
def emptyOverride : ProxyOverride := {}

/-- The default proxy for a fixed environment and client id, passed through an
empty merge (the shape `FromYAML` stores in the map). -/
def defaultMerged : Proxy := applyOverride (defaultProxyWithClientID "" "cid") emptyOverride

/-- A proxy at the boundary of the cross-field invariant: the acknowledgment
timeout raised to exactly the registration timeout (20s), everything else at
its default. -/
def ackBoundaryProxy : Proxy :=
  { defaultProxyWithClientID "" "cid" with
      Consumer := { (defaultProxyWithClientID "" "cid").Consumer with AckTimeout := 20 * Second } }

/-- Override block that only sets `kafka.version` to `0.10.1.0` (the spec's
scenario of §8). -/
def c1ov : ProxyOverride := { KafkaVersion := some "0.10.1.0" }

/-- Document with the single cluster `prod` carrying `c1ov`. -/
def c1doc : YamlDoc := { proxies := [(YKey.str "prod", YVal.proxy c1ov)] }

/-- The configuration `FromYAML` produces for `c1doc`. -/
def c1app : App :=
  { newApp with
      Proxies := [("prod", applyOverride (defaultProxyWithClientID "" "cid") c1ov)]
      DefaultCluster := "prod" }

/-- Document whose first cluster name is the empty string. -/
def c3doc : YamlDoc :=
  { proxies := [(YKey.str "", YVal.proxy emptyOverride), (YKey.str "b", YVal.proxy emptyOverride)] }

/-- The configuration `FromYAML` produces for `c3doc`. -/
def c3app : App :=
  { newApp with Proxies := [("", defaultMerged), ("b", defaultMerged)], DefaultCluster := "b" }

/-- Document whose second cluster's override block is malformed. -/
def c8doc : YamlDoc :=
  { proxies := [(YKey.str "good", YVal.proxy emptyOverride),
                (YKey.str "bad", YVal.malformed "boom")] }

/-- Document with the two clusters `a` and `b`, in that order. -/
def c9doc : YamlDoc :=
  { proxies := [(YKey.str "a", YVal.proxy emptyOverride), (YKey.str "b", YVal.proxy emptyOverride)] }

/-- The configuration `FromYAML` produces for `c9doc`. -/
def c9app : App :=
  { newApp with Proxies := [("a", defaultMerged), ("b", defaultMerged)], DefaultCluster := "a" }

/-- Proxies mapping whose first cluster name is empty (for the
`default_cluster` claim). -/
def c10proxies : List (YKey × YVal) :=
  [(YKey.str "", YVal.proxy emptyOverride), (YKey.str "b", YVal.proxy emptyOverride)]

/-- Document that carries `c10proxies` and explicitly sets `default_cluster`
to `zzz`. -/
def c10doc : YamlDoc := { proxies := c10proxies, defaultCluster := some "zzz" }

/-- The configuration `FromYAML` produces for `c10doc`. -/
def c10app : App :=
  { newApp with Proxies := [("", defaultMerged), ("b", defaultMerged)], DefaultCluster := "b" }

/-- The version field of a freshly defaulted proxy is always a supported one. -/
theorem default_version_supported (env cid : String) :
    kafkaVersions.contains (defaultProxyWithClientID env cid).Kafka.Version = true := by
  show kafkaVersions.contains
    (if kafkaVersions.contains env then env else defaultKafkaVersion) = true
  by_cases h : kafkaVersions.contains env = true
  · rw [if_pos h]; exact h
  · rw [if_neg h]; decide

/-- C5: `defaultProxyWithClientID` uses the environment-provided version
exactly when it belongs to the supported set {0.8.2.2, 0.9.0.0, 0.9.0.1,
0.10.0.0, 0.10.0.1, 0.10.1.0}; otherwise (including the empty value returned
for an absent variable) the compiled-in default 0.8.2.2 applies. -/
theorem default_kafka_version_env_override (env cid : String) :
    (defaultProxyWithClientID env cid).Kafka.Version =
      (if kafkaVersions.contains env then env else defaultKafkaVersion) ∧
    defaultKafkaVersion = "0.8.2.2" ∧
    kafkaVersions = ["0.8.2.2", "0.9.0.0", "0.9.0.1", "0.10.0.0", "0.10.0.1", "0.10.1.0"] ∧
    kafkaVersions.contains "" = false :=
  ⟨rfl, rfl, rfl, by decide⟩

/-- C6: for every client identifier and every environment value, the
pure-default proxy configuration passes `Proxy.validate` unmodified. -/
theorem default_proxy_passes_validate (env cid : String) :
    Proxy.validate (defaultProxyWithClientID env cid) = none := by
  have hver := default_version_supported env cid
  unfold Proxy.validate
  rw [hver, if_neg (show ¬¬(true = true) by simp)]
  simp only [defaultProxyWithClientID]
  rfl

/-- C7: on a proxies entry whose key is not a string, `FromYAML` rejects the
whole load, but the error message is the constant `"invalid cluster, "`: the
source formats the zero-valued `cluster` variable instead of the offending
key, so — as the independence from `raw` shows — the message never names the
key. -/
theorem fromYAML_nonstring_key_constant_error (env cid raw : String) (v : YVal)
    (rest : List (YKey × YVal)) (dc : Option String) :
    FromYAML env cid { proxies := (YKey.nonString raw, v) :: rest, defaultCluster := dc } =
      .error "invalid cluster, " := rfl

/-- A guarded check followed by the rest of the checks is the corresponding
if-then-else chain link. -/
theorem ite_some_orElse (c : Prop) [Decidable c] (e : String) (x : Option String) :
    (if c then some e else none).orElse (fun _ => x) = if c then some e else x := by
  by_cases h : c <;> simp [h]

/-- C4: `Proxy.validate` is exactly the run of the spec's ordered check list:
the checks are evaluated in the fixed order the spec gives, and the first
violation is returned, never a later one. -/
theorem proxy_validate_eq_spec_first_violation (p : Proxy) :
    Proxy.validate p = firstViolation specOrderedChecks p := by
  unfold Proxy.validate
  simp only [specOrderedChecks, firstViolation, ite_some_orElse]

set_option maxHeartbeats 4000000 in
/-- A proxy that passes `Proxy.validate` satisfies the cross-field invariant:
its acknowledgment timeout is strictly below its registration timeout. -/
theorem validate_none_ack_lt (p : Proxy) (hnone : Proxy.validate p = none) :
    p.Consumer.AckTimeout < p.Consumer.RegistrationTimeout := by
  by_cases hC : p.Consumer.RegistrationTimeout ≤ p.Consumer.AckTimeout
  case neg => omega
  exfalso
  unfold Proxy.validate at hnone
  by_cases h1 : kafkaVersions.contains p.Kafka.Version = true
  case neg => rw [if_pos h1] at hnone; exact Option.noConfusion hnone
  rw [if_neg (not_not_intro h1)] at hnone
  by_cases h2 : p.Producer.ChannelBufferSize ≤ 0
  case pos => rw [if_pos h2] at hnone; exact Option.noConfusion hnone
  rw [if_neg h2] at hnone
  by_cases h3 : p.Producer.FlushBytes < 0
  case pos => rw [if_pos h3] at hnone; exact Option.noConfusion hnone
  rw [if_neg h3] at hnone
  by_cases h4 : p.Producer.FlushFrequency < 0
  case pos => rw [if_pos h4] at hnone; exact Option.noConfusion hnone
  rw [if_neg h4] at hnone
  by_cases h5 : p.Producer.RetryBackoff ≤ 0
  case pos => rw [if_pos h5] at hnone; exact Option.noConfusion hnone
  rw [if_neg h5] at hnone
  by_cases h6 : p.Producer.RetryMax ≤ 0
  case pos => rw [if_pos h6] at hnone; exact Option.noConfusion hnone
  rw [if_neg h6] at hnone
  by_cases h7 : p.Producer.ShutdownTimeout < 0
  case pos => rw [if_pos h7] at hnone; exact Option.noConfusion hnone
  rw [if_neg h7] at hnone
  by_cases h8 : compressionCodecs.contains p.Producer.Compression = true
  case neg => rw [if_pos h8] at hnone; exact Option.noConfusion hnone
  rw [if_neg (not_not_intro h8)] at hnone
  by_cases h9 : producerAcks.contains p.Producer.RequiredAcks = true
  case neg => rw [if_pos h9] at hnone; exact Option.noConfusion hnone
  rw [if_neg (not_not_intro h9)] at hnone
  rw [if_pos hC] at hnone
  exact Option.noConfusion hnone

set_option maxHeartbeats 1000000 in
/-- C2: a proxy whose acknowledgment timeout is greater than or equal to its
registration timeout (the boundary of equality included) is always rejected;
when no earlier check fails the error names both fields, and the wrapping by
`App.validate` adds the offending cluster name. -/
theorem validate_rejects_ack_ge_registration (p : Proxy) (c : String)
    (h : p.Consumer.RegistrationTimeout ≤ p.Consumer.AckTimeout) :
    Proxy.validate p ≠ none ∧
    (kafkaVersions.contains p.Kafka.Version = true →
     0 < p.Producer.ChannelBufferSize →
     0 ≤ p.Producer.FlushBytes →
     0 ≤ p.Producer.FlushFrequency →
     0 < p.Producer.RetryBackoff →
     0 < p.Producer.RetryMax →
     0 ≤ p.Producer.ShutdownTimeout →
     compressionCodecs.contains p.Producer.Compression = true →
     producerAcks.contains p.Producer.RequiredAcks = true →
     Proxy.validate p = some "consumer.ack_timeout must be < consumer.registration_timeout" ∧
     App.validate { newApp with Proxies := [(c, p)], DefaultCluster := c } =
       some ("invalid config, cluster=" ++ c ++ ": " ++
         "consumer.ack_timeout must be < consumer.registration_timeout")) := by
  constructor
  · intro hnone
    have hlt := validate_none_ack_lt p hnone
    omega
  · intro hv hb hfb hff hrb hrm hst hcomp hacks
    have hval : Proxy.validate p =
        some "consumer.ack_timeout must be < consumer.registration_timeout" := by
      unfold Proxy.validate
      rw [if_neg (not_not_intro hv),
        if_neg (show ¬(p.Producer.ChannelBufferSize ≤ 0) by omega),
        if_neg (show ¬(p.Producer.FlushBytes < 0) by omega),
        if_neg (show ¬(p.Producer.FlushFrequency < 0) by omega),
        if_neg (show ¬(p.Producer.RetryBackoff ≤ 0) by omega),
        if_neg (show ¬(p.Producer.RetryMax ≤ 0) by omega),
        if_neg (show ¬(p.Producer.ShutdownTimeout < 0) by omega),
        if_neg (not_not_intro hcomp),
        if_neg (not_not_intro hacks),
        if_pos h]
    refine ⟨hval, ?_⟩
    simp [App.validate, validateProxies, hval]

theorem insertProxy_lookup_self (l : List (String × Proxy)) (c : String) (p : Proxy) :
    lookupCluster (insertProxy l c p) c = some p := by
  induction l with
  | nil => simp [insertProxy, lookupCluster]
  | cons hd tl ih =>
    obtain ⟨c0, p0⟩ := hd
    by_cases h : c0 = c
    · simp [insertProxy, h, lookupCluster]
    · simp [insertProxy, h, lookupCluster, ih]

theorem insertProxy_lookup_ne (l : List (String × Proxy)) (c c2 : String) (p : Proxy)
    (h : c2 ≠ c) :
    lookupCluster (insertProxy l c p) c2 = lookupCluster l c2 := by
  induction l with
  | nil => simp [insertProxy, lookupCluster, Ne.symm h]
  | cons hd tl ih =>
    obtain ⟨c0, p0⟩ := hd
    by_cases hc : c0 = c
    · subst hc
      simp [insertProxy, lookupCluster, Ne.symm h]
    · simp [insertProxy, hc, lookupCluster, ih]

/-- A successful run of the `FromYAML` loop means every entry had a string key
and a well-formed override block. -/
theorem loop_ok_entries (dflt : Proxy) (entries : List (YKey × YVal)) :
    ∀ acc dc res,
      fromYAMLLoop dflt entries acc dc = .ok res →
      ∀ e ∈ entries, ∃ c ov, e = (YKey.str c, YVal.proxy ov) := by
  induction entries with
  | nil => intro acc dc res _ e he; cases he
  | cons hd tl ih =>
    intro acc dc res h
    obtain ⟨key, val⟩ := hd
    cases key with
    | nonString raw => exact absurd h (by simp [fromYAMLLoop])
    | str cluster =>
      cases val with
      | malformed m => exact absurd h (by simp [fromYAMLLoop])
      | proxy ov =>
        intro e he
        rcases List.mem_cons.mp he with rfl | hmem
        · exact ⟨cluster, ov, rfl⟩
        · exact ih _ _ _ (by simpa [fromYAMLLoop] using h) e hmem

/-- The loop never touches a map entry whose key has no override left in the
remaining document. -/
theorem loop_preserves_lookup (dflt : Proxy) (c : String) (entries : List (YKey × YVal)) :
    ∀ acc dc ps dc2,
      fromYAMLLoop dflt entries acc dc = .ok (ps, dc2) →
      lastOverride entries c = none →
      lookupCluster ps c = lookupCluster acc c := by
  induction entries with
  | nil =>
    intro acc dc ps dc2 h _
    simp [fromYAMLLoop] at h
    obtain ⟨rfl, rfl⟩ := h
    rfl
  | cons hd tl ih =>
    intro acc dc ps dc2 h hnone
    obtain ⟨key, val⟩ := hd
    cases key with
    | nonString raw => exact absurd h (by simp [fromYAMLLoop])
    | str cluster =>
      cases val with
      | malformed m => exact absurd h (by simp [fromYAMLLoop])
      | proxy ov0 =>
        have h2 : fromYAMLLoop dflt tl (insertProxy acc cluster (applyOverride dflt ov0))
            (if dc = "" then cluster else dc) = .ok (ps, dc2) := by
          simpa [fromYAMLLoop] using h
        cases hlt : lastOverride tl c with
        | some v => simp [lastOverride, hlt] at hnone
        | none =>
          simp only [lastOverride, hlt] at hnone
          have hcc : cluster ≠ c := by
            intro hcc
            subst hcc
            simp at hnone
          rw [ih _ _ _ _ h2 hlt]
          exact insertProxy_lookup_ne acc cluster c (applyOverride dflt ov0) (Ne.symm hcc)

/-- After a successful run of the loop, the map entry of a cluster name is the
default record merged with the last override block the document carries for
that name. -/
theorem loop_lookup_last (dflt : Proxy) (c : String) (ov : ProxyOverride)
    (entries : List (YKey × YVal)) :
    ∀ acc dc ps dc2,
      fromYAMLLoop dflt entries acc dc = .ok (ps, dc2) →
      lastOverride entries c = some (YVal.proxy ov) →
      lookupCluster ps c = some (applyOverride dflt ov) := by
  induction entries with
  | nil => intro acc dc ps dc2 _ hlast; simp [lastOverride] at hlast
  | cons hd tl ih =>
    intro acc dc ps dc2 h hlast
    obtain ⟨key, val⟩ := hd
    cases key with
    | nonString raw => exact absurd h (by simp [fromYAMLLoop])
    | str cluster =>
      cases val with
      | malformed m => exact absurd h (by simp [fromYAMLLoop])
      | proxy ov0 =>
        have h2 : fromYAMLLoop dflt tl (insertProxy acc cluster (applyOverride dflt ov0))
            (if dc = "" then cluster else dc) = .ok (ps, dc2) := by
          simpa [fromYAMLLoop] using h
        cases hlt : lastOverride tl c with
        | some v =>
          simp only [lastOverride, hlt] at hlast
          exact ih _ _ _ _ h2 (by rw [hlt, hlast])
        | none =>
          simp only [lastOverride, hlt] at hlast
          by_cases hcc : cluster = c
          · subst hcc
            simp at hlast
            subst hlast
            exact (loop_preserves_lookup dflt cluster tl _ _ _ _ h2 hlt).trans
              (insertProxy_lookup_self acc cluster _)
          · rw [if_neg (by simp [hcc])] at hlast
            exact absurd hlast (by simp)

/-- After a successful run of the loop, the default cluster is the starting
default when that was non-empty, and otherwise the first non-empty cluster
name of the remaining document. -/
theorem loop_defaultCluster (dflt : Proxy) (entries : List (YKey × YVal)) :
    ∀ acc dc ps dc2,
      fromYAMLLoop dflt entries acc dc = .ok (ps, dc2) →
      dc2 = if dc = "" then firstNonEmptyClusterName entries else dc := by
  induction entries with
  | nil =>
    intro acc dc ps dc2 h
    simp [fromYAMLLoop] at h
    obtain ⟨rfl, rfl⟩ := h
    by_cases hdc : dc = "" <;> simp [hdc, firstNonEmptyClusterName]
  | cons hd tl ih =>
    intro acc dc ps dc2 h
    obtain ⟨key, val⟩ := hd
    cases key with
    | nonString raw => exact absurd h (by simp [fromYAMLLoop])
    | str cluster =>
      cases val with
      | malformed m => exact absurd h (by simp [fromYAMLLoop])
      | proxy ov0 =>
        have h2 : fromYAMLLoop dflt tl (insertProxy acc cluster (applyOverride dflt ov0))
            (if dc = "" then cluster else dc) = .ok (ps, dc2) := by
          simpa [fromYAMLLoop] using h
        have hrec := ih _ _ _ _ h2
        by_cases hdc : dc = "" <;> by_cases hcl : cluster = "" <;>
          simp_all [firstNonEmptyClusterName]

/-- Loop invariant: either nothing has been inserted yet and the default
cluster is still unset, or the default cluster names a key of the map. -/
theorem loop_default_mem (dflt : Proxy) (entries : List (YKey × YVal)) :
    ∀ acc dc ps dc2,
      fromYAMLLoop dflt entries acc dc = .ok (ps, dc2) →
      ((acc = [] ∧ dc = "") ∨ (lookupCluster acc dc).isSome = true) →
      ((ps = [] ∧ dc2 = "") ∨ (lookupCluster ps dc2).isSome = true) := by
  induction entries with
  | nil =>
    intro acc dc ps dc2 h hstart
    simp [fromYAMLLoop] at h
    obtain ⟨rfl, rfl⟩ := h
    exact hstart
  | cons hd tl ih =>
    intro acc dc ps dc2 h hstart
    obtain ⟨key, val⟩ := hd
    cases key with
    | nonString raw => exact absurd h (by simp [fromYAMLLoop])
    | str cluster =>
      cases val with
      | malformed m => exact absurd h (by simp [fromYAMLLoop])
      | proxy ov0 =>
        have h2 : fromYAMLLoop dflt tl (insertProxy acc cluster (applyOverride dflt ov0))
            (if dc = "" then cluster else dc) = .ok (ps, dc2) := by
          simpa [fromYAMLLoop] using h
        apply ih _ _ _ _ h2
        right
        by_cases hdc : dc = ""
        · rw [if_pos hdc, insertProxy_lookup_self]
          rfl
        · rw [if_neg hdc]
          rcases hstart with ⟨_, hdc0⟩ | hsome
          · exact absurd hdc0 hdc
          · by_cases hcd : dc = cluster
            · rw [hcd, insertProxy_lookup_self]
              rfl
            · rw [insertProxy_lookup_ne acc cluster dc _ hcd]
              exact hsome

/-- A stand-alone decode error anywhere in the document, preceded only by
well-formed entries, aborts the loop with the wrapped cluster name. -/
theorem loop_error_malformed (dflt : Proxy) (c msg : String) (post : List (YKey × YVal))
    (pre : List (YKey × YVal)) :
    ∀ acc dc,
      (∀ e ∈ pre, ∃ c2 ov2, e = (YKey.str c2, YVal.proxy ov2)) →
      fromYAMLLoop dflt (pre ++ (YKey.str c, YVal.malformed msg) :: post) acc dc =
        .error ("failed to parse proxy config, cluster=" ++ c ++ ": " ++ msg) := by
  induction pre with
  | nil => intro acc dc _; simp [fromYAMLLoop]
  | cons hd tl ih =>
    intro acc dc hwf
    obtain ⟨c2, ov2, rfl⟩ := hwf hd (List.mem_cons_self hd tl)
    simp only [List.cons_append, fromYAMLLoop]
    exact ih _ _ (fun e he => hwf e (List.mem_cons_of_mem _ he))

/-- Inversion of a successful `FromYAML` run: the loop succeeded, the result
is the loop state installed on a fresh `newApp`, and it validated. -/
theorem fromYAML_ok_inversion (env cid : String) (doc : YamlDoc) (app : App)
    (h : FromYAML env cid doc = .ok app) :
    ∃ ps dc,
      fromYAMLLoop (defaultProxyWithClientID env cid) doc.proxies [] "" = .ok (ps, dc) ∧
      app = { newApp with Proxies := ps, DefaultCluster := dc } ∧
      App.validate app = none := by
  unfold FromYAML at h
  split at h
  next e heq => exact absurd h (by simp)
  next ps dc heq =>
    split at h
    next e2 heq2 => exact absurd h (by simp)
    next heq2 =>
      simp only [Except.ok.injEq] at h
      exact ⟨ps, dc, heq, h.symm, h ▸ heq2⟩

/-- The default cluster of a successfully loaded configuration is the first
non-empty cluster name in document order. -/
theorem fromYAML_ok_defaultCluster (env cid : String) (doc : YamlDoc) (app : App)
    (h : FromYAML env cid doc = .ok app) :
    app.DefaultCluster = firstNonEmptyClusterName doc.proxies := by
  obtain ⟨ps, dc, hloop, happ, _⟩ := fromYAML_ok_inversion env cid doc app h
  subst happ
  have hdc := loop_defaultCluster (defaultProxyWithClientID env cid) doc.proxies
    [] "" ps dc hloop
  simpa using hdc

/-- Witness for C2 at the boundary: the default proxy with the acknowledgment
timeout raised to exactly the 20s registration timeout is rejected with the
error naming both fields and, wrapped, the cluster name. -/
theorem validate_rejects_ack_ge_registration_witness :
    Proxy.validate ackBoundaryProxy ≠ none ∧
    App.validate { newApp with Proxies := [("prod", ackBoundaryProxy)], DefaultCluster := "prod" } =
      some ("invalid config, cluster=" ++ "prod" ++ ": " ++
        "consumer.ack_timeout must be < consumer.registration_timeout") := by
  have hmain := validate_rejects_ack_ge_registration ackBoundaryProxy "prod" (by decide)
  exact ⟨hmain.1, (hmain.2 (by decide) (by decide) (by decide) (by decide) (by decide)
    (by decide) (by decide) (by decide) (by decide)).2⟩

/-- C3 counterexample: for the document whose ordered proxies mapping is
`{"": {}, "b": {}}` the load succeeds, the first cluster name in document
order is the empty string, yet `DefaultCluster` is `b`: the claim "equals the
first cluster name encountered in document order" fails. -/
theorem defaultCluster_not_first_name_counterexample :
    (FromYAML "" "cid" c3doc).map App.DefaultCluster = .ok "b" ∧
    firstClusterName c3doc.proxies = some "" ∧
    ("b" : String) ≠ "" := by
  refine ⟨rfl, rfl, by decide⟩

/-- C3 (amended): the `DefaultCluster` of every configuration successfully
returned by `FromYAML` is the first cluster name in document order whose name
is non-empty (and the empty string when every name is empty), deterministically
in document order. -/
theorem fromYAML_defaultCluster_first_nonempty (env cid : String) (doc : YamlDoc)
    (app : App) (h : FromYAML env cid doc = .ok app) :
    app.DefaultCluster = firstNonEmptyClusterName doc.proxies :=
  fromYAML_ok_defaultCluster env cid doc app h

/-- Witness for C3 (amended) at the concrete counterexample document. -/
theorem fromYAML_defaultCluster_first_nonempty_witness :
    FromYAML "" "cid" c3doc = .ok c3app ∧
    c3app.DefaultCluster = firstNonEmptyClusterName c3doc.proxies :=
  ⟨rfl, fromYAML_defaultCluster_first_nonempty "" "cid" c3doc c3app rfl⟩

/-- C1: when `FromYAML` succeeds, the proxy stored for a cluster whose (last)
override block is `ov` is exactly the default record (built by
`defaultProxyWithClientID` from the shared client identifier) merged with
`ov`; and in that merged record every field absent from the override keeps the
default value while every present field takes the override value (the `getD`
equations below: `none` yields the default, `some v` yields `v`). -/
theorem fromYAML_merge_preserves_defaults (env cid : String) (doc : YamlDoc)
    (app : App) (c : String) (ov : ProxyOverride)
    (hok : FromYAML env cid doc = .ok app)
    (hlast : lastOverride doc.proxies c = some (YVal.proxy ov)) :
    lookupCluster app.Proxies c =
      some (applyOverride (defaultProxyWithClientID env cid) ov) ∧
    (applyOverride (defaultProxyWithClientID env cid) ov).ClientID =
      ov.ClientID.getD (defaultProxyWithClientID env cid).ClientID ∧
    (applyOverride (defaultProxyWithClientID env cid) ov).Kafka.SeedPeers =
      ov.KafkaSeedPeers.getD (defaultProxyWithClientID env cid).Kafka.SeedPeers ∧
    (applyOverride (defaultProxyWithClientID env cid) ov).Kafka.Version =
      ov.KafkaVersion.getD (defaultProxyWithClientID env cid).Kafka.Version ∧
    (applyOverride (defaultProxyWithClientID env cid) ov).ZooKeeper.SeedPeers =
      ov.ZooKeeperSeedPeers.getD (defaultProxyWithClientID env cid).ZooKeeper.SeedPeers ∧
    (applyOverride (defaultProxyWithClientID env cid) ov).ZooKeeper.Chroot =
      ov.ZooKeeperChroot.getD (defaultProxyWithClientID env cid).ZooKeeper.Chroot ∧
    (applyOverride (defaultProxyWithClientID env cid) ov).Producer.ChannelBufferSize =
      ov.ProducerChannelBufferSize.getD
        (defaultProxyWithClientID env cid).Producer.ChannelBufferSize ∧
    (applyOverride (defaultProxyWithClientID env cid) ov).Producer.Compression =
      ov.ProducerCompression.getD (defaultProxyWithClientID env cid).Producer.Compression ∧
    (applyOverride (defaultProxyWithClientID env cid) ov).Producer.FlushBytes =
      ov.ProducerFlushBytes.getD (defaultProxyWithClientID env cid).Producer.FlushBytes ∧
    (applyOverride (defaultProxyWithClientID env cid) ov).Producer.FlushFrequency =
      ov.ProducerFlushFrequency.getD
        (defaultProxyWithClientID env cid).Producer.FlushFrequency ∧
    (applyOverride (defaultProxyWithClientID env cid) ov).Producer.RetryBackoff =
      ov.ProducerRetryBackoff.getD (defaultProxyWithClientID env cid).Producer.RetryBackoff ∧
    (applyOverride (defaultProxyWithClientID env cid) ov).Producer.RetryMax =
      ov.ProducerRetryMax.getD (defaultProxyWithClientID env cid).Producer.RetryMax ∧
    (applyOverride (defaultProxyWithClientID env cid) ov).Producer.RequiredAcks =
      ov.ProducerRequiredAcks.getD (defaultProxyWithClientID env cid).Producer.RequiredAcks ∧
    (applyOverride (defaultProxyWithClientID env cid) ov).Producer.ShutdownTimeout =
      ov.ProducerShutdownTimeout.getD
        (defaultProxyWithClientID env cid).Producer.ShutdownTimeout ∧
    (applyOverride (defaultProxyWithClientID env cid) ov).Consumer.AckTimeout =
      ov.ConsumerAckTimeout.getD (defaultProxyWithClientID env cid).Consumer.AckTimeout ∧
    (applyOverride (defaultProxyWithClientID env cid) ov).Consumer.ChannelBufferSize =
      ov.ConsumerChannelBufferSize.getD
        (defaultProxyWithClientID env cid).Consumer.ChannelBufferSize ∧
    (applyOverride (defaultProxyWithClientID env cid) ov).Consumer.FetchBytes =
      ov.ConsumerFetchBytes.getD (defaultProxyWithClientID env cid).Consumer.FetchBytes ∧
    (applyOverride (defaultProxyWithClientID env cid) ov).Consumer.LongPollingTimeout =
      ov.ConsumerLongPollingTimeout.getD
        (defaultProxyWithClientID env cid).Consumer.LongPollingTimeout ∧
    (applyOverride (defaultProxyWithClientID env cid) ov).Consumer.OffsetsCommitInterval =
      ov.ConsumerOffsetsCommitInterval.getD
        (defaultProxyWithClientID env cid).Consumer.OffsetsCommitInterval ∧
    (applyOverride (defaultProxyWithClientID env cid) ov).Consumer.RebalanceDelay =
      ov.ConsumerRebalanceDelay.getD
        (defaultProxyWithClientID env cid).Consumer.RebalanceDelay ∧
    (applyOverride (defaultProxyWithClientID env cid) ov).Consumer.RegistrationTimeout =
      ov.ConsumerRegistrationTimeout.getD
        (defaultProxyWithClientID env cid).Consumer.RegistrationTimeout ∧
    (applyOverride (defaultProxyWithClientID env cid) ov).Consumer.RetryBackoff =
      ov.ConsumerRetryBackoff.getD
        (defaultProxyWithClientID env cid).Consumer.RetryBackoff := by
  obtain ⟨ps, dc, hloop, happ, _⟩ := fromYAML_ok_inversion env cid doc app hok
  subst happ
  refine ⟨?_, rfl, rfl, rfl, rfl, rfl, rfl, rfl, rfl, rfl, rfl, rfl, rfl, rfl, rfl,
    rfl, rfl, rfl, rfl, rfl, rfl, rfl⟩
  exact loop_lookup_last (defaultProxyWithClientID env cid) c ov doc.proxies
    [] "" ps dc hloop hlast

/-- Witness for C1 at the spec scenario: `{proxies: {prod: {kafka: {version:
"0.10.1.0"}}}}` loads, the stored proxy is the merge of the default with that
single-field override, the set field carries the override value and an unset
field (the registration timeout) keeps its default. -/
theorem fromYAML_merge_preserves_defaults_witness :
    FromYAML "" "cid" c1doc = .ok c1app ∧
    lookupCluster c1app.Proxies "prod" =
      some (applyOverride (defaultProxyWithClientID "" "cid") c1ov) ∧
    (applyOverride (defaultProxyWithClientID "" "cid") c1ov).Kafka.Version = "0.10.1.0" ∧
    (applyOverride (defaultProxyWithClientID "" "cid") c1ov).Consumer.RegistrationTimeout =
      (defaultProxyWithClientID "" "cid").Consumer.RegistrationTimeout :=
  ⟨rfl, (fromYAML_merge_preserves_defaults "" "cid" c1doc c1app "prod" c1ov rfl rfl).1,
    rfl, rfl⟩

/-- C8: `FromYAML` is all-or-nothing.  A successful load means every entry of
the document decoded and the merged configuration validated; conversely a
decode failure at any cluster (all earlier entries well-formed) aborts the
whole load with the error wrapped with that cluster name — the `Except.error`
result carries no configuration. -/
theorem fromYAML_all_or_nothing (env cid : String) (doc : YamlDoc) :
    (∀ app, FromYAML env cid doc = .ok app →
      App.validate app = none ∧
      ∀ e ∈ doc.proxies, ∃ c ov, e = (YKey.str c, YVal.proxy ov)) ∧
    (∀ pre c msg post,
      doc.proxies = pre ++ (YKey.str c, YVal.malformed msg) :: post →
      (∀ e ∈ pre, ∃ c2 ov2, e = (YKey.str c2, YVal.proxy ov2)) →
      FromYAML env cid doc =
        .error ("failed to parse proxy config, cluster=" ++ c ++ ": " ++ msg)) := by
  constructor
  · intro app hok
    obtain ⟨ps, dc, hloop, _, hval⟩ := fromYAML_ok_inversion env cid doc app hok
    exact ⟨hval, loop_ok_entries (defaultProxyWithClientID env cid) doc.proxies
      [] "" (ps, dc) hloop⟩
  · intro pre c msg post hdoc hwf
    unfold FromYAML
    rw [hdoc, loop_error_malformed (defaultProxyWithClientID env cid) c msg post pre
      [] "" hwf]

/-- Witness for C8: the document `{good: {}, bad: <malformed>}` fails as a
whole with the error naming cluster `bad`. -/
theorem fromYAML_all_or_nothing_witness :
    FromYAML "" "cid" c8doc =
      .error ("failed to parse proxy config, cluster=" ++ "bad" ++ ": " ++ "boom") :=
  (fromYAML_all_or_nothing "" "cid" c8doc).2
    [(YKey.str "good", YVal.proxy emptyOverride)] "bad" "boom" [] rfl
    (by
      intro e he
      rw [List.mem_singleton] at he
      exact ⟨"good", emptyOverride, he⟩)

/-- C9: every configuration successfully returned by `FromYAML` has a
non-empty proxies mapping, and its `DefaultCluster` names a key present in
that mapping. -/
theorem fromYAML_result_invariants (env cid : String) (doc : YamlDoc) (app : App)
    (h : FromYAML env cid doc = .ok app) :
    app.Proxies ≠ [] ∧ (lookupCluster app.Proxies app.DefaultCluster).isSome = true := by
  obtain ⟨ps, dc, hloop, happ, hval⟩ := fromYAML_ok_inversion env cid doc app h
  subst happ
  have hmem := loop_default_mem (defaultProxyWithClientID env cid) doc.proxies
    [] "" ps dc hloop (Or.inl ⟨rfl, rfl⟩)
  have hne : ps ≠ [] := by
    intro hnil
    simp [App.validate, hnil] at hval
  constructor
  · exact hne
  · rcases hmem with ⟨hps, _⟩ | hsome
    · exact absurd hps hne
    · exact hsome

/-- Witness for C9 at the two-cluster document `{a: {}, b: {}}`. -/
theorem fromYAML_result_invariants_witness :
    c9app.Proxies ≠ [] ∧
    (lookupCluster c9app.Proxies c9app.DefaultCluster).isSome = true :=
  fromYAML_result_invariants "" "cid" c9doc c9app rfl

/-- C10 counterexample: with proxies `{"": {}, "b": {}}` and `default_cluster:
zzz` in the document, the load succeeds and `DefaultCluster` is `b` — neither
the document-supplied `zzz` (which is ignored) nor the first cluster name `""`:
the claim "equals the first proxy cluster name" fails. -/
theorem default_cluster_key_ignored_counterexample :
    c10doc.defaultCluster = some "zzz" ∧
    (FromYAML "" "cid" c10doc).map App.DefaultCluster = .ok "b" ∧
    firstClusterName c10doc.proxies = some "" ∧
    ("b" : String) ≠ "" ∧ ("b" : String) ≠ "zzz" :=
  ⟨rfl, rfl, rfl, by decide, by decide⟩

/-- C10 (amended): the `default_cluster` key of the input document is ignored
by `FromYAML` — the result is the same whatever that key holds — and on
success `DefaultCluster` is the first non-empty cluster name in document
order. -/
theorem fromYAML_ignores_default_cluster_key (env cid : String)
    (proxies : List (YKey × YVal)) (v w : Option String) :
    FromYAML env cid { proxies := proxies, defaultCluster := v } =
      FromYAML env cid { proxies := proxies, defaultCluster := w } ∧
    (∀ app, FromYAML env cid { proxies := proxies, defaultCluster := v } = .ok app →
      app.DefaultCluster = firstNonEmptyClusterName proxies) := by
  refine ⟨rfl, fun app h => ?_⟩
  exact fromYAML_ok_defaultCluster env cid _ app h

/-- Witness for C10 (amended) at the concrete counterexample document. -/
theorem fromYAML_ignores_default_cluster_key_witness :
    FromYAML "" "cid" { proxies := c10proxies, defaultCluster := some "zzz" } =
      FromYAML "" "cid" { proxies := c10proxies, defaultCluster := none } ∧
    c10app.DefaultCluster = firstNonEmptyClusterName c10proxies := by
  have hmain := fromYAML_ignores_default_cluster_key "" "cid" c10proxies (some "zzz") none
  exact ⟨hmain.1, hmain.2 c10app rfl⟩

end Config
